import Mathlib

/-!
Verification of the DQ Service Calculator core (calculation engine,
configuration validation, breakdown formatter) against its natural-language
specification.  The Python source is shallowly embedded: response maps become
functions `String → Option Value`, Python floats become `ℚ`, Python dicts of
coefficients become association lists, and code paths that would raise a
runtime exception (TypeError from arithmetic on a non-numeric value,
ZeroDivisionError, ValueError for an unknown tier) are modelled with `Option`.
-/

/-- A scalar response value.  Python booleans are also integers
(`True == 1`), which the embedding reflects in `asNum?` and `truthy`. -/
inductive Value where
  | num  (q : ℚ)
  | str  (s : String)
  | bool (b : Bool)
deriving DecidableEq

/-- A response set: Python `Dict[str, Any]` restricted to scalar values. -/
abbrev Responses := String → Option Value

/-- Python `responses.get(key, default)`. -/
def getD (r : Responses) (k : String) (d : Value) : Value := (r k).getD d

/-- Numeric view of a value, as used by Python arithmetic; `none` models the
TypeError that arithmetic on a string raises (string "multiplication" by an
int would survive one step in Python but the following numeric comparison
raises, so the whole calculation fails either way). -/
def asNum? : Value → Option ℚ
  | .num q  => some q
  | .bool b => some (if b then 1 else 0)
  | .str _  => none

/-- Python truthiness of a response value. -/
def truthy : Value → Bool
  | .num q  => decide (q ≠ 0)
  | .str s  => decide (s ≠ "")
  | .bool b => b

/-- A coefficient table: Python `Dict[str, float]` in insertion order. -/
abbrev Table := List (String × ℚ)

/-- Python `table.get(key, default)`. -/
def lookupD (t : Table) (k : String) (d : ℚ) : ℚ := (t.lookup k).getD d

/-- Python `value in table` for a response value used as a key; only string
values can match the string-keyed coefficient tables. -/
def containsKeyV (t : Table) : Value → Bool
  | .str s => (t.lookup s).isSome
  | _      => false

/-- Python `table.get(value, default)` for a response value used as a key. -/
def lookupVD (t : Table) (v : Value) (d : ℚ) : ℚ :=
  match v with
  | .str s => lookupD t s d
  | _      => d

/-- `math.ceil` on a rational (an executable form of `Int.ceil`). -/
def ratCeil (q : ℚ) : ℤ := -⌊-q⌋

/-- Python `int()` applied to a float: truncation toward zero. -/
def ratTrunc (q : ℚ) : ℤ := if q < 0 then ratCeil q else ⌊q⌋

/-- Python `sum(breakdown.values())`. -/
def sumVals (l : Table) : ℚ := (l.map Prod.snd).sum

/-- `CalculationRules` from config/schema.py (all coefficient dicts plus the
two scalar day counts). -/
structure CalculationRules where
  base_service_days : ℤ
  minimum_project_days : ℤ
  workflow_multipliers : Table
  integration_complexity : Table
  integration_complexity_legacy : Table
  data_volume_multipliers : Table
  rules_overhead : Table
  existing_rules_impact : Table
  tool_setup : Table
  datawash_installation : Table
  cloud_integration : Table
  additional_requirements : Table
deriving DecidableEq

/-- The `tables_count` fallback chain used throughout engine.py:
`responses.get('tables_count', responses.get('num_workflows', 1))`. -/
def tables_value (r : Responses) : Value :=
  getD r "tables_count" (getD r "num_workflows" (.num 1))

/-- The resolved table count as a number (`none` on a non-numeric value). -/
def tables_count? (r : Responses) : Option ℚ := asNum? (tables_value r)

/-- `CalculationEngine._calculate_workflow_complexity`. -/
def calculate_workflow_complexity (rules : CalculationRules) (r : Responses) :
    Option ℚ := do
  let t ← tables_count? r
  let wc := getD r "workflow_complexity" (.str "Simple (single table/report)")
  pure (t * lookupVD rules.workflow_multipliers wc 2)

/-- `CalculationEngine._calculate_integration_complexity`. -/
def calculate_integration_complexity (rules : CalculationRules) (r : Responses) :
    Option ℚ := do
  let t ← tables_count? r
  let ic := getD r "data_sources" (getD r "integration_complexity" (.str ""))
  let m :=
    if containsKeyV rules.integration_complexity ic then
      lookupVD rules.integration_complexity ic 0
    else if containsKeyV rules.integration_complexity_legacy ic then
      lookupVD rules.integration_complexity_legacy ic 0
    else 0
  pure (t * m)

/-- `CalculationEngine._calculate_rules_development`. -/
def calculate_rules_development (rules : CalculationRules) (r : Responses) :
    Option ℚ :=
  let er := getD r "existing_rules" (getD r "dq_rules_status" (.str "Not documented"))
  let base := lookupVD rules.existing_rules_impact er 5
  match r "rules_count" with
  | none => pure base
  | some rcv => do
      let rc ← asNum? rcv
      let t ← tables_count? r
      let total_rules := rc * t
      let base_included := lookupD rules.rules_overhead "base_rules_included" 20
      let overhead :=
        if total_rules > base_included then
          ((ratCeil ((total_rules - base_included) / 5) : ℤ) : ℚ) *
            lookupD rules.rules_overhead "additional_rules_per_5" (1 / 2)
        else 0
      pure (base + overhead)

/-- `CalculationEngine._calculate_data_volume_impact`. -/
def calculate_data_volume_impact (rules : CalculationRules) (r : Responses) :
    Option ℚ :=
  match r "data_volume" with
  | none => pure 0
  | some dv => do
      let t ← tables_count? r
      pure (t * lookupVD rules.data_volume_multipliers dv 0)

/-- Python `'existing' in label.lower()` on a response value (lower-casing
done character-wise, as `str.lower` does for ASCII labels). -/
def hasSubstrExisting : Value → Bool
  | .str s => decide ("existing".toList <:+: s.toList.map Char.toLower)
  | _ => false

/-- `CalculationEngine._calculate_tool_setup`.  The legacy heuristic branch is
only reached when the label is exactly one of the two legacy strings. -/
def calculate_tool_setup (rules : CalculationRules) (r : Responses) : ℚ :=
  let ct := getD r "commercial_tool" (getD r "dq_tool_status" (.str "No commercial tool"))
  let commercial :=
    if containsKeyV rules.tool_setup ct then lookupVD rules.tool_setup ct 0
    else if ct = .str "Have existing DQ tool" ∨ ct = .str "Need other tool" then
      if hasSubstrExisting ct then lookupD rules.tool_setup "Have existing DQ tool" 2
      else lookupD rules.tool_setup "Need tool acquisition" 3
    else 0
  let dw := getD r "datawash_installation" (.str "No, not needed")
  commercial + lookupVD rules.datawash_installation dw 0

/-- `CalculationEngine._calculate_cloud_integration`. -/
def calculate_cloud_integration (rules : CalculationRules) (r : Responses) : ℚ :=
  lookupVD rules.cloud_integration (getD r "cloud_platform" (.str "Not applicable")) 0

/-- `CalculationEngine._calculate_additional_requirements`. -/
def calculate_additional_requirements (rules : CalculationRules) (r : Responses) :
    Option ℚ := do
  let g := if !(truthy (getD r "governance_maturity" (.bool false))) then
             lookupD rules.additional_requirements "governance_setup" 3 else 0
  let c := if truthy (getD r "compliance_req" (.bool false)) then
             lookupD rules.additional_requirements "compliance" 2 else 0
  let h ← if truthy (getD r "historical_analysis" (.bool false)) then do
            let t ← tables_count? r
            pure (t * lookupD rules.additional_requirements "historical_analysis_per_workflow" 2)
          else pure (0 : ℚ)
  let s := if truthy (getD r "system_integration" (.bool false)) then
             lookupD rules.additional_requirements "system_integration" 3 else 0
  pure (g + c + h + s)

/-- A breakdown entry is retained only when its day count is positive
(`if days > 0: breakdown[...] = days` in the source). -/
def entryIf (name : String) (x : ℚ) : Table := if x > 0 then [(name, x)] else []

/-- The breakdown dict of `calculate_working_days` in the source's insertion
order: base service always present, every other component only when
strictly positive. -/
def build_breakdown (rules : CalculationRules)
    (workflow_days integration_days rules_days volume_days tool_days
     cloud_days additional_days : ℚ) : Table :=
  ("Base Service (Phases 0-3)", (rules.base_service_days : ℚ)) ::
    (entryIf "Workflow Complexity" workflow_days ++
     entryIf "Data Integration" integration_days ++
     entryIf "DQ Rules Development" rules_days ++
     entryIf "Data Volume Impact" volume_days ++
     entryIf "Tool Setup" tool_days ++
     entryIf "Cloud Integration" cloud_days ++
     entryIf "Additional Requirements" additional_days)

/-- `CalculationEngine.calculate_working_days`: builds the breakdown in the
source's insertion order, sums it, truncates with `int()` and clamps with
`max(..., minimum_project_days)`. -/
def calculate_working_days (rules : CalculationRules) (r : Responses) :
    Option (ℤ × Table) := do
  let workflow_days ← calculate_workflow_complexity rules r
  let integration_days ← calculate_integration_complexity rules r
  let rules_days ← calculate_rules_development rules r
  let volume_days ← calculate_data_volume_impact rules r
  let tool_days := calculate_tool_setup rules r
  let cloud_days := calculate_cloud_integration rules r
  let additional_days ← calculate_additional_requirements rules r
  let breakdown : Table :=
    build_breakdown rules workflow_days integration_days rules_days
      volume_days tool_days cloud_days additional_days
  pure (max (ratTrunc (sumVals breakdown)) rules.minimum_project_days, breakdown)

/-! ## Configuration schema (config/schema.py) and loader queries (config/loader.py) -/

/-- `QuestionConfig` from config/schema.py.  `section` is a Lean keyword, so
the field is written with guillemets; it is the dataclass's `section` field. -/
structure QuestionConfig where
  label : String
  type : String
  tooltip : String
  «section» : String
  complexity_level : String
  options : Option (List String) := none
  min_value : Option ℚ := none
  max_value : Option ℚ := none
  optional : Bool := false
  depends_on : Option String := none
  depends_value : Option String := none
deriving DecidableEq

/-- `ComplexityLevelConfig.show_questions`: either the literal string "all"
or an explicit list of question ids. -/
inductive ShowQuestions where
  | all
  | list (qs : List String)
deriving DecidableEq

/-- `ComplexityLevelConfig` from config/schema.py. -/
structure ComplexityLevelConfig where
  label : String
  description : String
  show_questions : ShowQuestions
deriving DecidableEq

/-- `UISection` from config/schema.py. -/
structure UISection where
  name : String
  icon : String
  description : String
deriving DecidableEq

/-- `DQCalculatorConfig` restricted to the fields the verified operations
read (app metadata, pricing, security, export and methodology fields carry no
behaviour for the claims under study). -/
structure DQCalculatorConfig where
  complexity_levels : List (String × ComplexityLevelConfig)
  questions : List (String × QuestionConfig)
  calculation_rules : CalculationRules
  ui_sections : List UISection
deriving DecidableEq

/-- Python truthiness of an `Optional[str]` (None and "" are falsy). -/
def optStrTruthy : Option String → Bool
  | some s => decide (s ≠ "")
  | none => false

/-- Python `value in options` for an `Optional[str]` value. -/
def optStrMem (v : Option String) (opts : List String) : Bool :=
  match v with
  | some s => decide (s ∈ opts)
  | none => false

/-- The members of the `QuestionType` enum. -/
def question_type_values : List String :=
  ["number_input", "selectbox", "radio", "checkbox"]

/-- The members of the `ComplexityLevel` enum. -/
def complexity_level_values : List String := ["basic", "advanced"]

/-- `validate_question_config` from config/schema.py (error list in the
source's append order). -/
def validate_question_config (question_id : String) (c : QuestionConfig) :
    List String :=
  (if c.type ∈ question_type_values then [] else
    ["Question '" ++ question_id ++ "': Invalid question type '" ++ c.type ++ "'"])
  ++ (if c.complexity_level ∈ complexity_level_values then [] else
    ["Question '" ++ question_id ++ "': Invalid complexity level '" ++
      c.complexity_level ++ "'"])
  ++ (if c.type = "number_input" then
        match c.min_value, c.max_value with
        | some mn, some mx =>
            if mn ≥ mx then
              ["Question '" ++ question_id ++ "': min_value must be less than max_value"]
            else []
        | _, _ =>
            ["Question '" ++ question_id ++ "': Number input requires min_value and max_value"]
      else [])
  ++ (if c.type = "selectbox" ∨ c.type = "radio" then
        match c.options with
        | some opts =>
            if opts.length < 2 then
              ["Question '" ++ question_id ++ "': " ++ c.type ++
                " requires at least 2 options"]
            else []
        | none =>
            ["Question '" ++ question_id ++ "': " ++ c.type ++
              " requires at least 2 options"]
      else [])
  ++ (if optStrTruthy c.depends_on && !optStrTruthy c.depends_value then
        ["Question '" ++ question_id ++ "': depends_on requires depends_value"]
      else [])

/-- One error message per negative coefficient, in table order (the loop at
schema.py:185-187). -/
def negativeErrors (t : Table) : List String :=
  t.filterMap (fun kv =>
    if kv.2 < 0 then
      some ("Negative multiplier not allowed: " ++ kv.1 ++ " = " ++ toString kv.2)
    else none)

/-- `validate_calculation_rules` from config/schema.py.  Note which tables
the source iterates: `integration_complexity_legacy`, `rules_overhead` and
`datawash_installation` are absent from the loop. -/
def validate_calculation_rules (rules : CalculationRules) : List String :=
  (if rules.base_service_days ≤ 0 then ["base_service_days must be positive"] else [])
  ++ (if rules.minimum_project_days ≤ 0 then ["minimum_project_days must be positive"] else [])
  ++ (if rules.base_service_days < rules.minimum_project_days then
        ["base_service_days should be >= minimum_project_days"] else [])
  ++ negativeErrors rules.workflow_multipliers
  ++ negativeErrors rules.integration_complexity
  ++ negativeErrors rules.data_volume_multipliers
  ++ negativeErrors rules.existing_rules_impact
  ++ negativeErrors rules.tool_setup
  ++ negativeErrors rules.cloud_integration
  ++ negativeErrors rules.additional_requirements

/-- First-occurrence deduplication (Python dict/set key semantics). -/
def dedupFirstAux : List String → List String → List String
  | _, [] => []
  | seen, a :: l =>
      if a ∈ seen then dedupFirstAux seen l
      else a :: dedupFirstAux (a :: seen) l

/-- First-occurrence deduplication of a key list. -/
def dedupFirst (l : List String) : List String := dedupFirstAux [] l

/-- The missing-UI-section errors of `validate_config` (the source iterates
a Python set whose order is unspecified; first-occurrence order is fixed
here — the claims only use emptiness). -/
def missingSectionErrors (config : DQCalculatorConfig) : List String :=
  let defined := config.ui_sections.map (fun s => s.name)
  let qsecs := dedupFirst (config.questions.map (fun p => p.2.«section»))
  (qsecs.filter (fun s => decide (s ∉ defined))).map
    (fun s => "Missing UI section definition: " ++ s)

/-- The per-tier undefined-question errors of `validate_config`. -/
def complexityLevelErrors (config : DQCalculatorConfig) : List String :=
  config.complexity_levels.bind (fun p =>
    match p.2.show_questions with
    | .all => []
    | .list qs =>
        let undef := dedupFirst (qs.filter (fun q => (config.questions.lookup q).isNone))
        if undef = [] then [] else
          ["Complexity level '" ++ p.1 ++ "' references undefined questions: " ++
            String.intercalate ", " undef])

/-- The dependency errors of `validate_config` (schema.py:220-230). -/
def dependencyErrors (config : DQCalculatorConfig) : List String :=
  config.questions.bind (fun p =>
    match p.2.depends_on with
    | none => []
    | some dep =>
        if dep = "" then []
        else match config.questions.lookup dep with
          | none =>
              ["Question '" ++ p.1 ++ "' depends on undefined question '" ++ dep ++ "'"]
          | some dq =>
              if optStrMem p.2.depends_value (dq.options.getD []) then []
              else
                ["Question '" ++ p.1 ++ "' depends on value '" ++
                  (p.2.depends_value.getD "None") ++ "' not in options for '" ++ dep ++ "'"])

/-- `validate_config` from config/schema.py: question errors, rule errors,
section errors, tier errors, dependency errors, accumulated in order. -/
def validate_config (config : DQCalculatorConfig) : List String :=
  (config.questions.bind (fun p => validate_question_config p.1 p.2))
  ++ validate_calculation_rules config.calculation_rules
  ++ missingSectionErrors config
  ++ complexityLevelErrors config
  ++ dependencyErrors config

/-- `ConfigLoader._validate_config` (loader.py:241-249): raises a
`ConfigurationError` with the joined message exactly when the violation list
is non-empty; `none` models a successful load. -/
def load_config_error (config : DQCalculatorConfig) : Option String :=
  match validate_config config with
  | [] => none
  | errs => some ("Configuration validation errors:\n" ++
      String.intercalate "\n" (errs.map (fun e => "- " ++ e)))

/-- `ConfigLoader.get_questions_for_complexity`; `none` models the
ValueError raised for an unknown complexity level. -/
def get_questions_for_complexity (config : DQCalculatorConfig)
    (complexity_level : String) : Option (List String) :=
  match config.complexity_levels.lookup complexity_level with
  | none => none
  | some lvl =>
      match lvl.show_questions with
      | .all => some (config.questions.map Prod.fst)
      | .list qs => some qs

/-- `ConfigLoader.should_show_question`: an unknown question id yields
False; Python compares the recorded response value with the `depends_value`
string (a recorded response value is never Python `None`, so a question with
`depends_on` set but `depends_value = None` can only be hidden). -/
def should_show_question (config : DQCalculatorConfig) (question_id : String)
    (responses : Responses) : Bool :=
  match config.questions.lookup question_id with
  | none => false
  | some qc =>
      match qc.depends_on with
      | none => true
      | some dep =>
          if dep = "" then true
          else match responses dep with
            | none => false
            | some v =>
                match v, qc.depends_value with
                | .str s, some t => decide (s = t)
                | _, _ => false

/-! ## Response validation (engine.py validate_responses, required_only=None) -/

/-- Python `isinstance(value, (int, float))`; a Python bool is an int. -/
def isNumberInstance : Value → Bool
  | .num _ => true
  | .bool _ => true
  | .str _ => false

/-- The numeric content of a value already known to be a number instance. -/
def numericValue : Value → ℚ
  | .num q => q
  | .bool b => if b then 1 else 0
  | .str _ => 0

/-- Python `value < min_value` guarded on `min_value is not None`. -/
def belowMin (c : QuestionConfig) (q : ℚ) : Bool :=
  match c.min_value with
  | some mn => decide (q < mn)
  | none => false

/-- Python `value > max_value` guarded on `max_value is not None`. -/
def aboveMax (c : QuestionConfig) (q : ℚ) : Bool :=
  match c.max_value with
  | some mx => decide (q > mx)
  | none => false

/-- Python `value in options` for a response value against string options. -/
def valueInList (v : Value) (opts : List String) : Bool :=
  match v with
  | .str s => decide (s ∈ opts)
  | _ => false

/-- Helper rendering an optional numeric bound inside an error message. -/
def optRatStr : Option ℚ → String
  | some q => toString q
  | none => "None"

/-- The per-question body of `validate_responses` (engine.py:259-279), in
the `required_only = None` case: present values get type/range/membership
checks, absent non-optional questions get a required-field error. -/
def validate_one (question_id : String) (c : QuestionConfig) (r : Responses) :
    Option String :=
  match r question_id with
  | some v =>
      if c.type = "number_input" then
        if !isNumberInstance v || decide (numericValue v < 0) then
          some "Must be a positive number"
        else if belowMin c (numericValue v) then
          some ("Must be at least " ++ optRatStr c.min_value)
        else if aboveMax c (numericValue v) then
          some ("Must be at most " ++ optRatStr c.max_value)
        else none
      else if c.type = "selectbox" ∨ c.type = "radio" then
        match c.options with
        | some opts =>
            if opts ≠ [] ∧ valueInList v opts = false then
              some ("Must be one of: " ++ String.intercalate ", " opts)
            else none
        | none => none
      else none
  | none => if c.optional = false then some "This field is required" else none

/-- The error (if any) the validation loop records for one question id. -/
def question_error (config : DQCalculatorConfig) (r : Responses) (qid : String) :
    Option String :=
  match config.questions.lookup qid with
  | some qc => validate_one qid qc r
  | none => none

/-- `CalculationEngine.validate_responses` with `required_only = None`: the
questions shown for the complexity level (an unknown level raises, modelled
by `none`), filtered to declared questions in first-occurrence order (the
dict-comprehension key order), each validated by `validate_one`; the result
is the error map as an association list in insertion order. -/
def validate_responses (config : DQCalculatorConfig) (r : Responses)
    (complexity_level : String) : Option (List (String × String)) := do
  let shown ← get_questions_for_complexity config complexity_level
  let qids := dedupFirst (shown.filter (fun q => (config.questions.lookup q).isSome))
  some (qids.filterMap (fun qid =>
    (question_error config r qid).map (fun e => (qid, e))))

/-! ## Breakdown formatter (calculator/breakdown.py) -/

/-- One row of `generate_breakdown_dataframe` (the formatted percentage
string carries the same number as `Raw_Percentage`). -/
structure Row where
  component : String
  days : ℤ
  raw_days : ℚ
  raw_percentage : ℚ
deriving DecidableEq

/-- Builds one dataframe row; `none` models the ZeroDivisionError that
`(days/total_days)*100` raises when `total_days` is 0. -/
def rowOf (total_days : ℤ) (kv : String × ℚ) : Option Row :=
  if total_days = 0 then none
  else some ⟨kv.1, ratTrunc kv.2, kv.2, kv.2 / (total_days : ℚ) * 100⟩

/-- `BreakdownGenerator.generate_breakdown_dataframe`: one row per
strictly-positive component, in breakdown order; `none` models an
uncaught exception. -/
def generate_breakdown_dataframe (breakdown : Table) (total_days : ℤ) :
    Option (List Row) :=
  (breakdown.filter (fun kv => decide (kv.2 > 0))).mapM (rowOf total_days)

/-- Modelled from the spec: the commercial-tool term as claim C6 and §4.2
item 6 of the spec describe it — an exact table lookup, "else" the legacy
text heuristic applied to any unmatched label (the source additionally
restricts the heuristic to the two legacy labels). -/
def tool_setup_claimed (rules : CalculationRules) (r : Responses) : ℚ :=
  let ct := getD r "commercial_tool" (getD r "dq_tool_status" (.str "No commercial tool"))
  let commercial :=
    if containsKeyV rules.tool_setup ct then lookupVD rules.tool_setup ct 0
    else if hasSubstrExisting ct then lookupD rules.tool_setup "Have existing DQ tool" 2
    else lookupD rules.tool_setup "Need tool acquisition" 3
  let dw := getD r "datawash_installation" (.str "No, not needed")
  commercial + lookupVD rules.datawash_installation dw 0

/-- The number of violations `validate_calculation_rules` can detect: the
three scalar checks plus one per negative coefficient in each of the seven
iterated tables. -/
def countViolations (rules : CalculationRules) : ℕ :=
  (if rules.base_service_days ≤ 0 then 1 else 0)
  + (if rules.minimum_project_days ≤ 0 then 1 else 0)
  + (if rules.base_service_days < rules.minimum_project_days then 1 else 0)
  + (rules.workflow_multipliers.filter (fun kv => decide (kv.2 < 0))).length
  + (rules.integration_complexity.filter (fun kv => decide (kv.2 < 0))).length
  + (rules.data_volume_multipliers.filter (fun kv => decide (kv.2 < 0))).length
  + (rules.existing_rules_impact.filter (fun kv => decide (kv.2 < 0))).length
  + (rules.tool_setup.filter (fun kv => decide (kv.2 < 0))).length
  + (rules.cloud_integration.filter (fun kv => decide (kv.2 < 0))).length
  + (rules.additional_requirements.filter (fun kv => decide (kv.2 < 0))).length

/-- All coefficients of a table are non-negative. -/
def tableNonneg (t : Table) : Prop := ∀ kv ∈ t, (0 : ℚ) ≤ kv.2

/-! ## Named sub-expressions and concrete instances used by the claims -/


def clipPos (x : ℚ) : ℚ := if x > 0 then x else 0

/-- The response set with the `num_workflows` binding moved to
`tables_count` (all other keys untouched). -/
def swap_num_workflows (r : Responses) (v : Value) : Responses := fun k =>
  if k = "tables_count" then some v
  else if k = "num_workflows" then none
  else r k

/-- The response set with `tables_count` overwritten by the number `t`. -/
def setTables (r : Responses) (t : ℚ) : Responses := fun k =>
  if k = "tables_count" then some (.num t) else r k

/-- The workflow multiplier resolved from the responses. -/
def workflowMult (rules : CalculationRules) (r : Responses) : ℚ :=
  lookupVD rules.workflow_multipliers
    (getD r "workflow_complexity" (.str "Simple (single table/report)")) 2

/-- The integration multiplier resolved from the responses (current table
first, then legacy, then 0). -/
def integrationSource (r : Responses) : Value :=
  getD r "data_sources" (getD r "integration_complexity" (.str ""))

def integrationMult (rules : CalculationRules) (r : Responses) : ℚ :=
  if containsKeyV rules.integration_complexity (integrationSource r) then
    lookupVD rules.integration_complexity (integrationSource r) 0
  else if containsKeyV rules.integration_complexity_legacy (integrationSource r) then
    lookupVD rules.integration_complexity_legacy (integrationSource r) 0
  else 0

/-- The existing-rules base impact resolved from the responses. -/
def rulesBase (rules : CalculationRules) (r : Responses) : ℚ :=
  lookupVD rules.existing_rules_impact
    (getD r "existing_rules" (getD r "dq_rules_status" (.str "Not documented"))) 5

/-- The rules overhead for a numeric rules count `rc` and table count `t`. -/
def rulesOverheadAt (rules : CalculationRules) (rc t : ℚ) : ℚ :=
  if rc * t > lookupD rules.rules_overhead "base_rules_included" 20 then
    ((ratCeil ((rc * t - lookupD rules.rules_overhead "base_rules_included" 20) / 5) : ℤ) : ℚ) *
      lookupD rules.rules_overhead "additional_rules_per_5" (1 / 2)
  else 0

/-- The additional-requirements sum for table count `t`. -/
def addTerms (rules : CalculationRules) (r : Responses) (t : ℚ) : ℚ :=
  (if !(truthy (getD r "governance_maturity" (.bool false))) then
     lookupD rules.additional_requirements "governance_setup" 3 else 0) +
  (if truthy (getD r "compliance_req" (.bool false)) then
     lookupD rules.additional_requirements "compliance" 2 else 0) +
  (if truthy (getD r "historical_analysis" (.bool false)) then
     t * lookupD rules.additional_requirements "historical_analysis_per_workflow" 2 else 0) +
  (if truthy (getD r "system_integration" (.bool false)) then
     lookupD rules.additional_requirements "system_integration" 3 else 0)

def c1rules : CalculationRules :=
  { base_service_days := 9
    minimum_project_days := 5
    workflow_multipliers := []
    integration_complexity := []
    integration_complexity_legacy := []
    data_volume_multipliers := []
    rules_overhead := []
    existing_rules_impact := []
    tool_setup := []
    datawash_installation := []
    cloud_integration := []
    additional_requirements := [] }

def c1resp : Responses := fun _ => none

def c1break : Table :=
  [("Base Service (Phases 0-3)", 9), ("Workflow Complexity", 2),
   ("DQ Rules Development", 5), ("Additional Requirements", 3)]

def c2rules : CalculationRules :=
  { base_service_days := 9
    minimum_project_days := 5
    workflow_multipliers := [("Complex (multiple tables/joins)", 4)]
    integration_complexity := [("Complex integration (4+ sources)", 3)]
    integration_complexity_legacy := []
    data_volume_multipliers := []
    rules_overhead := []
    existing_rules_impact := [("Not documented", 5)]
    tool_setup := []
    datawash_installation := []
    cloud_integration := []
    additional_requirements := [("governance_setup", 3)] }

def c2resp : Responses := fun k =>
  if k = "tables_count" then some (.num 3)
  else if k = "workflow_complexity" then some (.str "Complex (multiple tables/joins)")
  else if k = "data_sources" then some (.str "Complex integration (4+ sources)")
  else if k = "existing_rules" then some (.str "Not documented")
  else if k = "commercial_tool" then some (.str "No commercial tool")
  else if k = "governance_maturity" then some (.bool false)
  else none

def c3rules : CalculationRules :=
  { base_service_days := 9
    minimum_project_days := 5
    workflow_multipliers := []
    integration_complexity := []
    integration_complexity_legacy := []
    data_volume_multipliers := []
    rules_overhead := [("base_rules_included", 20), ("additional_rules_per_5", 1/2)]
    existing_rules_impact := []
    tool_setup := []
    datawash_installation := []
    cloud_integration := []
    additional_requirements := [] }

def c3resp : Responses := fun k =>
  if k = "tables_count" then some (.num 2)
  else if k = "rules_count" then some (.num 13)
  else none

def c4rules : CalculationRules :=
  { base_service_days := 9
    minimum_project_days := 5
    workflow_multipliers := []
    integration_complexity := []
    integration_complexity_legacy := []
    data_volume_multipliers := []
    rules_overhead := [("base_rules_included", 20), ("additional_rules_per_5", -1)]
    existing_rules_impact := []
    tool_setup := []
    datawash_installation := []
    cloud_integration := []
    additional_requirements := [] }

def c4resp1 : Responses := fun k =>
  if k = "tables_count" then some (.num 1)
  else if k = "rules_count" then some (.num 22)
  else none

def c4resp2 : Responses := fun k =>
  if k = "tables_count" then some (.num 2)
  else if k = "rules_count" then some (.num 22)
  else none

def c4wrules : CalculationRules :=
  { base_service_days := 9
    minimum_project_days := 5
    workflow_multipliers := [("Simple (single table/report)", 2)]
    integration_complexity := []
    integration_complexity_legacy := []
    data_volume_multipliers := []
    rules_overhead := [("base_rules_included", 20), ("additional_rules_per_5", 1/2)]
    existing_rules_impact := []
    tool_setup := []
    datawash_installation := []
    cloud_integration := []
    additional_requirements := [] }

def c4wresp : Responses := fun k =>
  if k = "rules_count" then some (.num 10) else none

def c5rules : CalculationRules :=
  { base_service_days := 9
    minimum_project_days := 5
    workflow_multipliers := [("Simple (single table/report)", 2)]
    integration_complexity := []
    integration_complexity_legacy := []
    data_volume_multipliers := []
    rules_overhead := []
    existing_rules_impact := [("Not documented", 5)]
    tool_setup := []
    datawash_installation := []
    cloud_integration := []
    additional_requirements := [("governance_setup", 3)] }

def c5resp : Responses := fun k =>
  if k = "num_workflows" then some (.num 4)
  else if k = "workflow_complexity" then some (.str "Simple (single table/report)")
  else if k = "governance_maturity" then some (.bool true)
  else none

def c6rules : CalculationRules :=
  { base_service_days := 9
    minimum_project_days := 5
    workflow_multipliers := []
    integration_complexity := []
    integration_complexity_legacy := []
    data_volume_multipliers := []
    rules_overhead := []
    existing_rules_impact := []
    tool_setup := []
    datawash_installation := []
    cloud_integration := []
    additional_requirements := [] }

def c6resp : Responses := fun k =>
  if k = "commercial_tool" then some (.str "No commercial tool") else none

def c7cfg : DQCalculatorConfig :=
  { complexity_levels := []
    questions := []
    calculation_rules :=
      { base_service_days := 9, minimum_project_days := 5
        workflow_multipliers := [], integration_complexity := []
        integration_complexity_legacy := [("On-premise legacy systems", -1)]
        data_volume_multipliers := []
        rules_overhead := [], existing_rules_impact := [], tool_setup := []
        datawash_installation := [("Yes, please provide installation", -2)]
        cloud_integration := [], additional_requirements := [] }
    ui_sections := [] }

def c9qc : QuestionConfig :=
  { label := "Number of tables", type := "number_input", tooltip := ""
    «section» := "Scope", complexity_level := "basic"
    min_value := some 1, max_value := some 100, optional := false }

def c9cfg : DQCalculatorConfig :=
  { complexity_levels :=
      [("basic", { label := "Basic", description := ""
                   show_questions := .list ["tables_count"] })]
    questions := [("tables_count", c9qc)]
    calculation_rules :=
      { base_service_days := 9, minimum_project_days := 5
        workflow_multipliers := [], integration_complexity := []
        integration_complexity_legacy := [], data_volume_multipliers := []
        rules_overhead := [], existing_rules_impact := [], tool_setup := []
        datawash_installation := [], cloud_integration := []
        additional_requirements := [] }
    ui_sections := [{ name := "Scope", icon := "", description := "" }] }

def c10cfg : DQCalculatorConfig :=
  { complexity_levels := []
    questions := [("tables_count",
      { label := "Number of tables", type := "number_input", tooltip := ""
        «section» := "Scope", complexity_level := "basic"
        min_value := some 1, max_value := some 100 })]
    calculation_rules :=
      { base_service_days := 9, minimum_project_days := 5
        workflow_multipliers := [], integration_complexity := []
        integration_complexity_legacy := [], data_volume_multipliers := []
        rules_overhead := [], existing_rules_impact := [], tool_setup := []
        datawash_installation := [], cloud_integration := []
        additional_requirements := [] }
    ui_sections := [{ name := "Scope", icon := "", description := "" }] }


/-! ## General lemmas -/


theorem ratCeil_eq (q : ℚ) : ratCeil q = ⌈q⌉ := by
  rw [ratCeil, Int.floor_neg]; simp

theorem ratTrunc_mono {a b : ℚ} (h : a ≤ b) : ratTrunc a ≤ ratTrunc b := by
  unfold ratTrunc
  rw [ratCeil_eq, ratCeil_eq]
  split
  · split
    · exact Int.ceil_le_ceil h
    · rename_i ha hb
      have h1 : ⌈a⌉ ≤ 0 := Int.ceil_le.mpr (by exact_mod_cast le_of_lt ha)
      have h2 : (0 : ℤ) ≤ ⌊b⌋ := Int.floor_nonneg.mpr (by linarith)
      omega
  · split
    · rename_i ha hb
      exact absurd (lt_of_le_of_lt h hb) ha
    · exact Int.floor_le_floor h

theorem clipPos_mono {x y : ℚ} (h : x ≤ y) : clipPos x ≤ clipPos y := by
  unfold clipPos
  split <;> split <;> rename_i h1 h2 <;> linarith

theorem sumVals_cons (n : String) (x : ℚ) (l : Table) :
    sumVals ((n, x) :: l) = x + sumVals l := by simp [sumVals]

theorem sumVals_append (l1 l2 : Table) :
    sumVals (l1 ++ l2) = sumVals l1 + sumVals l2 := by simp [sumVals]

theorem sumVals_entryIf (n : String) (x : ℚ) :
    sumVals (entryIf n x) = clipPos x := by
  unfold entryIf clipPos; split <;> simp [sumVals]

theorem sumVals_build_breakdown (rules : CalculationRules)
    (w i rd v ts cl ad : ℚ) :
    sumVals (build_breakdown rules w i rd v ts cl ad) =
      (rules.base_service_days : ℚ) + clipPos w + clipPos i + clipPos rd +
        clipPos v + clipPos ts + clipPos cl + clipPos ad := by
  simp [build_breakdown, sumVals_cons, sumVals_append, sumVals_entryIf]
  ring

theorem mem_of_lookup {t : Table} {k : String} {v : ℚ}
    (h : t.lookup k = some v) : (k, v) ∈ t := by
  induction t with
  | nil => simp [List.lookup] at h
  | cons kv l ih =>
      obtain ⟨k', v'⟩ := kv
      rw [List.lookup] at h
      by_cases hk : k == k'
      · simp only [hk] at h
        have hk' : k = k' := by simpa using hk
        simp only [Option.some.injEq] at h
        subst hk'; subst h
        exact List.mem_cons_self _ _
      · simp only [Bool.not_eq_true] at hk
        simp only [hk] at h
        exact List.mem_cons_of_mem _ (ih h)

theorem lookupD_nonneg {t : Table} (ht : tableNonneg t) {d : ℚ} (hd : 0 ≤ d)
    (k : String) : 0 ≤ lookupD t k d := by
  unfold lookupD
  cases h : t.lookup k with
  | none => simpa using hd
  | some v => simpa using ht _ (mem_of_lookup h)

theorem lookupVD_nonneg {t : Table} (ht : tableNonneg t) {d : ℚ} (hd : 0 ≤ d)
    (v : Value) : 0 ≤ lookupVD t v d := by
  cases v <;> simp only [lookupVD]
  · exact hd
  · exact lookupD_nonneg ht hd _
  · exact hd

theorem if_singleton_eq_nil {c : Prop} [Decidable c] {s : String} :
    ((if c then [s] else []) = []) ↔ ¬c := by
  split <;> simp_all

theorem negativeErrors_eq_nil (t : Table) :
    negativeErrors t = [] ↔ tableNonneg t := by
  simp only [negativeErrors, List.filterMap_eq_nil_iff, tableNonneg]
  constructor
  · intro h kv hkv
    have := h kv hkv
    by_cases hneg : kv.2 < 0
    · simp [hneg] at this
    · linarith
  · intro h kv hkv
    have := h kv hkv
    rw [if_neg (by linarith)]

theorem negativeErrors_length (t : Table) :
    (negativeErrors t).length = (t.filter (fun kv => decide (kv.2 < 0))).length := by
  induction t with
  | nil => rfl
  | cons kv l ih =>
      by_cases h : kv.2 < 0 <;>
        · rw [negativeErrors, List.filterMap_cons, List.filter_cons]
          rw [negativeErrors] at ih
          simp [h, ih]

theorem validate_ok_facts {rules : CalculationRules}
    (h : validate_calculation_rules rules = []) :
    0 < rules.base_service_days ∧ 0 < rules.minimum_project_days ∧
    rules.minimum_project_days ≤ rules.base_service_days ∧
    tableNonneg rules.workflow_multipliers ∧
    tableNonneg rules.integration_complexity ∧
    tableNonneg rules.data_volume_multipliers ∧
    tableNonneg rules.existing_rules_impact ∧
    tableNonneg rules.tool_setup ∧
    tableNonneg rules.cloud_integration ∧
    tableNonneg rules.additional_requirements := by
  unfold validate_calculation_rules at h
  simp only [List.append_eq_nil, if_singleton_eq_nil, negativeErrors_eq_nil,
    not_le, not_lt] at h
  tauto

theorem dedupFirstAux_mem (seen l : List String) (a : String) :
    a ∈ dedupFirstAux seen l ↔ (a ∈ l ∧ a ∉ seen) := by
  induction l generalizing seen with
  | nil => simp [dedupFirstAux]
  | cons b l ih =>
      unfold dedupFirstAux
      by_cases hb : b ∈ seen
      · rw [if_pos hb, ih]
        constructor
        · exact fun ⟨h1, h2⟩ => ⟨List.mem_cons_of_mem _ h1, h2⟩
        · rintro ⟨h1, h2⟩
          rcases List.mem_cons.mp h1 with rfl | h1
          · exact absurd hb h2
          · exact ⟨h1, h2⟩
      · rw [if_neg hb]
        simp only [List.mem_cons, ih]
        constructor
        · rintro (rfl | ⟨h1, h2⟩)
          · exact ⟨Or.inl rfl, hb⟩
          · exact ⟨Or.inr h1, fun hs => h2 (Or.inr hs)⟩
        · rintro ⟨rfl | h1, h2⟩
          · exact Or.inl rfl
          · by_cases hab : a = b
            · exact Or.inl hab
            · exact Or.inr ⟨h1, by simp [hab, h2]⟩

theorem dedupFirstAux_nodup (seen l : List String) :
    (dedupFirstAux seen l).Nodup := by
  induction l generalizing seen with
  | nil => simp [dedupFirstAux]
  | cons b l ih =>
      unfold dedupFirstAux
      by_cases hb : b ∈ seen
      · rw [if_pos hb]; exact ih seen
      · rw [if_neg hb]
        refine List.nodup_cons.mpr ⟨?_, ih _⟩
        intro hmem
        exact ((dedupFirstAux_mem _ _ _).mp hmem).2 (List.mem_cons_self b seen)

theorem dedupFirst_mem (l : List String) (a : String) :
    a ∈ dedupFirst l ↔ a ∈ l := by
  rw [dedupFirst, dedupFirstAux_mem]; simp

theorem dedupFirst_nodup (l : List String) : (dedupFirst l).Nodup :=
  dedupFirstAux_nodup [] l

theorem filterMap_single_error {l : List String} {Q : String} {m : String}
    (f : String → Option String)
    (hnd : l.Nodup) (hQ : Q ∈ l)
    (hothers : ∀ q ∈ l, q ≠ Q → f q = none)
    (hfQ : f Q = some m) :
    l.filterMap (fun q => (f q).map (fun e => (q, e))) = [(Q, m)] := by
  induction l with
  | nil => cases hQ
  | cons a l ih =>
      rw [List.filterMap_cons]
      rcases List.mem_cons.mp hQ with rfl | hQl
      · rw [hfQ]
        simp only [Option.map_some']
        have hrest : ∀ q ∈ l, f q = none := fun q hq =>
          hothers q (List.mem_cons_of_mem _ hq)
            (fun h => (List.nodup_cons.mp hnd).1 (h ▸ hq))
        have : l.filterMap (fun q => (f q).map (fun e => (q, e))) = [] := by
          rw [List.filterMap_eq_nil_iff]
          intro q hq
          rw [hrest q hq]
          rfl
        rw [this]
      · have ha : a ≠ Q := fun h => (List.nodup_cons.mp hnd).1 (h ▸ hQl)
        rw [hothers a (List.mem_cons_self _ _) ha]
        simp only [Option.map_none']
        exact ih (List.nodup_cons.mp hnd).2 hQl
          (fun q hq hne => hothers q (List.mem_cons_of_mem _ hq) hne)

theorem tables_count_setTables (r : Responses) (t : ℚ) :
    tables_count? (setTables r t) = some t := by
  simp [tables_count?, tables_value, getD, setTables, asNum?]

theorem getD_setTables (r : Responses) (t : ℚ) {k : String}
    (h : ¬k = "tables_count") (d : Value) :
    getD (setTables r t) k d = getD r k d := by
  simp [getD, setTables, h]

theorem workflow_setTables (rules : CalculationRules) (r : Responses) (t : ℚ) :
    calculate_workflow_complexity rules (setTables r t) =
      some (t * workflowMult rules r) := by
  simp [calculate_workflow_complexity, tables_count_setTables, workflowMult,
    getD, setTables]

theorem integration_setTables (rules : CalculationRules) (r : Responses) (t : ℚ) :
    calculate_integration_complexity rules (setTables r t) =
      some (t * integrationMult rules r) := by
  simp [calculate_integration_complexity, tables_count_setTables, integrationMult,
    integrationSource, getD, setTables]

theorem rules_dev_none_setTables (rules : CalculationRules) (r : Responses) (t : ℚ)
    (h : r "rules_count" = none) :
    calculate_rules_development rules (setTables r t) = some (rulesBase rules r) := by
  have h' : (setTables r t) "rules_count" = none := by simp [setTables, h]
  unfold calculate_rules_development
  rw [h']
  simp [rulesBase, getD, setTables]

theorem rules_dev_some_setTables (rules : CalculationRules) (r : Responses) (t : ℚ)
    {rcv : Value} {rc : ℚ}
    (h : r "rules_count" = some rcv) (hq : asNum? rcv = some rc) :
    calculate_rules_development rules (setTables r t) =
      some (rulesBase rules r + rulesOverheadAt rules rc t) := by
  have h' : (setTables r t) "rules_count" = some rcv := by simp [setTables, h]
  unfold calculate_rules_development
  rw [h']
  simp [hq, tables_count_setTables, rulesBase, rulesOverheadAt, getD, setTables]

theorem volume_none_setTables (rules : CalculationRules) (r : Responses) (t : ℚ)
    (h : r "data_volume" = none) :
    calculate_data_volume_impact rules (setTables r t) = some 0 := by
  have h' : (setTables r t) "data_volume" = none := by simp [setTables, h]
  unfold calculate_data_volume_impact
  rw [h']
  rfl

theorem volume_some_setTables (rules : CalculationRules) (r : Responses) (t : ℚ)
    {dv : Value} (h : r "data_volume" = some dv) :
    calculate_data_volume_impact rules (setTables r t) =
      some (t * lookupVD rules.data_volume_multipliers dv 0) := by
  have h' : (setTables r t) "data_volume" = some dv := by simp [setTables, h]
  unfold calculate_data_volume_impact
  rw [h']
  simp [tables_count_setTables]

theorem tool_setTables (rules : CalculationRules) (r : Responses) (t : ℚ) :
    calculate_tool_setup rules (setTables r t) = calculate_tool_setup rules r := by
  simp [calculate_tool_setup, getD, setTables]

theorem cloud_setTables (rules : CalculationRules) (r : Responses) (t : ℚ) :
    calculate_cloud_integration rules (setTables r t) =
      calculate_cloud_integration rules r := by
  simp [calculate_cloud_integration, getD, setTables]

theorem additional_setTables (rules : CalculationRules) (r : Responses) (t : ℚ) :
    calculate_additional_requirements rules (setTables r t) =
      some (addTerms rules r t) := by
  by_cases hH : truthy (getD r "historical_analysis" (.bool false)) <;>
    simp [calculate_additional_requirements, addTerms, getD_setTables, hH,
      tables_count_setTables]

theorem calculate_working_days_components (rules : CalculationRules)
    (r : Responses) {w i rd v ad : ℚ}
    (hw : calculate_workflow_complexity rules r = some w)
    (hi : calculate_integration_complexity rules r = some i)
    (hrd : calculate_rules_development rules r = some rd)
    (hv : calculate_data_volume_impact rules r = some v)
    (had : calculate_additional_requirements rules r = some ad) :
    calculate_working_days rules r =
      some (max (ratTrunc (sumVals (build_breakdown rules w i rd v
          (calculate_tool_setup rules r) (calculate_cloud_integration rules r) ad)))
          rules.minimum_project_days,
        build_breakdown rules w i rd v (calculate_tool_setup rules r)
          (calculate_cloud_integration rules r) ad) := by
  simp [calculate_working_days, hw, hi, hrd, hv, had]

theorem rulesOverheadAt_mono (rules : CalculationRules) {rc t1 t2 : ℚ}
    (hrc : 0 ≤ rc)
    (hrate : 0 ≤ lookupD rules.rules_overhead "additional_rules_per_5" (1 / 2))
    (hle : t1 ≤ t2) :
    rulesOverheadAt rules rc t1 ≤ rulesOverheadAt rules rc t2 := by
  unfold rulesOverheadAt
  have hm : rc * t1 ≤ rc * t2 := mul_le_mul_of_nonneg_left hle hrc
  rw [ratCeil_eq, ratCeil_eq]
  set bi := lookupD rules.rules_overhead "base_rules_included" 20
  set rate := lookupD rules.rules_overhead "additional_rules_per_5" (1 / 2)
  split
  · split
    · rename_i hgt1 hgt2
      have hd : ((rc * t1 - bi) / 5 : ℚ) ≤ (rc * t2 - bi) / 5 := by linarith
      have hc := Int.ceil_le_ceil hd
      apply mul_le_mul_of_nonneg_right _ hrate
      exact_mod_cast hc
    · rename_i hgt1 hgt2
      linarith
  · split
    · rename_i hgt1 hgt2
      have hp2 : (0 : ℤ) < ⌈((rc * t2 - bi) / 5 : ℚ)⌉ :=
        Int.ceil_pos.mpr (by linarith)
      have hcast : (0 : ℚ) ≤ (⌈((rc * t2 - bi) / 5 : ℚ)⌉ : ℚ) := by
        exact_mod_cast le_of_lt hp2
      exact mul_nonneg hcast hrate
    · exact le_refl 0


/-! ## The claims -/


/-- Claim C1: whenever `calculate_working_days` returns `(total_days,
breakdown)`, the total equals the sum of the breakdown's values, truncated
to an integer with Python's `int()`, raised to `minimum_project_days` when
smaller; the breakdown itself is returned as computed (the equation is
stated about the returned map, which is never rescaled, so its sum may be
below the reported total when the minimum applies). -/
theorem C1_total_is_truncated_clamped_sum (rules : CalculationRules)
    (r : Responses) (d : ℤ) (b : Table)
    (h : calculate_working_days rules r = some (d, b)) :
    d = max (ratTrunc (sumVals b)) rules.minimum_project_days := by
  unfold calculate_working_days at h
  simp only [bind, Option.bind_eq_some, pure, Option.some.injEq, Prod.mk.injEq] at h
  obtain ⟨w, hw, i, hi, rd, hrd, v, hv, ad, had, hd, hb⟩ := h
  subst hb
  exact hd.symm

/-- Witness for C1 at a concrete rule set and the empty response set. -/
theorem C1_witness :
    calculate_working_days c1rules c1resp = some (19, c1break) ∧
    (19 : ℤ) = max (ratTrunc (sumVals c1break)) c1rules.minimum_project_days := by
  have h : calculate_working_days c1rules c1resp = some (19, c1break) := by
    simp [calculate_working_days, calculate_workflow_complexity,
      calculate_integration_complexity, calculate_rules_development,
      calculate_data_volume_impact, calculate_tool_setup, calculate_cloud_integration,
      calculate_additional_requirements, tables_count?, tables_value, getD, asNum?,
      truthy, lookupD, lookupVD, containsKeyV, c1rules, c1resp, entryIf, sumVals,
      build_breakdown, ratTrunc, ratCeil, List.lookup, hasSubstrExisting, c1break]
    norm_num
  exact ⟨h, C1_total_is_truncated_clamped_sum c1rules c1resp 19 c1break h⟩

/-- Claim C2: the end-to-end scenario of the spec — with the given rule
set and responses, the engine returns 38 total days and exactly the five
breakdown entries Base Service = 9, Workflow Complexity = 12,
Data Integration = 9, DQ Rules Development = 5, Additional Requirements = 3. -/
theorem C2_end_to_end_scenario :
    calculate_working_days c2rules c2resp =
      some (38, [("Base Service (Phases 0-3)", 9), ("Workflow Complexity", 12),
                 ("Data Integration", 9), ("DQ Rules Development", 5),
                 ("Additional Requirements", 3)]) := by
  simp [calculate_working_days, calculate_workflow_complexity,
    calculate_integration_complexity, calculate_rules_development,
    calculate_data_volume_impact, calculate_tool_setup, calculate_cloud_integration,
    calculate_additional_requirements, tables_count?, tables_value, getD, asNum?,
    truthy, lookupD, lookupVD, containsKeyV, c2rules, c2resp, entryIf, sumVals,
    build_breakdown, ratTrunc, ratCeil, List.lookup, hasSubstrExisting]
  norm_num

/-- Claim C3: with `base_rules_included = 20` and
`additional_rules_per_5 = 0.5` resolved from the rules-overhead table, and
a numeric `rules_count` present, the DQ Rules Development component exceeds
the existing-rules base impact by `ceil((rules_count*tables_count - 20)/5) * 0.5`
when the product exceeds 20 and by 0 otherwise (so products 20, 21, 25, 26
contribute 0, 0.5, 0.5, 1.0 respectively). -/
theorem C3_rules_overhead_step (rules : CalculationRules) (r : Responses)
    (rcv : Value) (rc t : ℚ)
    (hbi : lookupD rules.rules_overhead "base_rules_included" 20 = 20)
    (hper : lookupD rules.rules_overhead "additional_rules_per_5" (1 / 2) = 1 / 2)
    (hrc : r "rules_count" = some rcv) (hrcn : asNum? rcv = some rc)
    (ht : tables_count? r = some t) :
    calculate_rules_development rules r =
      some (lookupVD rules.existing_rules_impact
              (getD r "existing_rules" (getD r "dq_rules_status" (.str "Not documented"))) 5
            + (if rc * t > 20 then ((⌈(rc * t - 20) / 5⌉ : ℤ) : ℚ) * (1 / 2) else 0)) := by
  unfold calculate_rules_development
  rw [hrc]
  simp only [hrcn, ht, hbi, hper, Option.bind_eq_bind, Option.some_bind, bind,
    ratCeil_eq, Option.pure_def]

/-- Witness for C3 at rules_count = 13, tables_count = 2 (product 26, two
blocks of 0.5): component = 5 + 1. -/
theorem C3_witness :
    calculate_rules_development c3rules c3resp = some 6 := by
  have h := C3_rules_overhead_step c3rules c3resp (.num 13) 13 2
    (by simp [lookupD, c3rules, List.lookup])
    (by simp [lookupD, c3rules, List.lookup])
    (by simp [c3resp])
    (by simp [asNum?])
    (by simp [tables_count?, tables_value, getD, c3resp, asNum?])
  rw [h]
  rw [show ((13 : ℚ) * 2 - 20) / 5 = 6 / 5 by norm_num]
  rw [show (⌈(6:ℚ)/5⌉ : ℤ) = 2 by rw [Int.ceil_eq_iff]; norm_num]
  simp [lookupVD, lookupD, getD, c3rules, c3resp, List.lookup]
  norm_num

/-- Counterexample to C4 as stated: `c4rules` passes
`validate_calculation_rules` (the validator never inspects `rules_overhead`,
whose `additional_rules_per_5` here is negative), yet raising `tables_count`
from 1 to 2 with `rules_count = 22` drops the total from 18 to 16. -/
theorem C4_counterexample :
    validate_calculation_rules c4rules = [] ∧
    (calculate_working_days c4rules c4resp1).map Prod.fst = some 18 ∧
    (calculate_working_days c4rules c4resp2).map Prod.fst = some 16 := by
  refine ⟨?_, ?_, ?_⟩
  · simp [validate_calculation_rules, negativeErrors, c4rules]
  · simp [calculate_working_days, calculate_workflow_complexity,
      calculate_integration_complexity, calculate_rules_development,
      calculate_data_volume_impact, calculate_tool_setup, calculate_cloud_integration,
      calculate_additional_requirements, tables_count?, tables_value, getD, asNum?,
      truthy, lookupD, lookupVD, containsKeyV, c4rules, c4resp1, entryIf, sumVals,
      build_breakdown, ratTrunc, ratCeil, List.lookup, hasSubstrExisting]
    norm_num
  · simp [calculate_working_days, calculate_workflow_complexity,
      calculate_integration_complexity, calculate_rules_development,
      calculate_data_volume_impact, calculate_tool_setup, calculate_cloud_integration,
      calculate_additional_requirements, tables_count?, tables_value, getD, asNum?,
      truthy, lookupD, lookupVD, containsKeyV, c4rules, c4resp2, entryIf, sumVals,
      build_breakdown, ratTrunc, ratCeil, List.lookup, hasSubstrExisting]
    norm_num

/-! ## Monotonicity in the table count -/

/-- Claim C4 (amended): for a rule configuration that passes
`validate_calculation_rules` AND additionally has non-negative
legacy-integration coefficients and a non-negative `additional_rules_per_5`
rate (none of which the validator checks), and a response set whose
`rules_count`, if present, is a non-negative number, increasing the numeric
`tables_count` never decreases `total_days`. -/
theorem C4_amended_monotone_in_tables_count (rules : CalculationRules)
    (r : Responses) (t1 t2 : ℚ)
    (hval : validate_calculation_rules rules = [])
    (hleg : tableNonneg rules.integration_complexity_legacy)
    (hper5 : 0 ≤ lookupD rules.rules_overhead "additional_rules_per_5" (1 / 2))
    (hrcok : ∀ v, r "rules_count" = some v → ∃ q, asNum? v = some q ∧ 0 ≤ q)
    (hle : t1 ≤ t2) :
    ∃ d1 b1 d2 b2,
      calculate_working_days rules (setTables r t1) = some (d1, b1) ∧
      calculate_working_days rules (setTables r t2) = some (d2, b2) ∧
      d1 ≤ d2 := by
  obtain ⟨hb0, hm0, hbm, hWM, hIC, hDV, hERI, hTS, hCI, hAR⟩ := validate_ok_facts hval
  obtain ⟨rd1, rd2, hrd1, hrd2, hrdle⟩ :
      ∃ rd1 rd2, calculate_rules_development rules (setTables r t1) = some rd1 ∧
        calculate_rules_development rules (setTables r t2) = some rd2 ∧ rd1 ≤ rd2 := by
    cases hRC : r "rules_count" with
    | none =>
        exact ⟨_, _, rules_dev_none_setTables rules r t1 hRC,
          rules_dev_none_setTables rules r t2 hRC, le_refl _⟩
    | some rcv =>
        obtain ⟨q, hq, hq0⟩ := hrcok rcv hRC
        exact ⟨_, _, rules_dev_some_setTables rules r t1 hRC hq,
          rules_dev_some_setTables rules r t2 hRC hq,
          add_le_add_left (rulesOverheadAt_mono rules hq0 hper5 hle) _⟩
  obtain ⟨v1, v2, hv1, hv2, hvle⟩ :
      ∃ v1 v2, calculate_data_volume_impact rules (setTables r t1) = some v1 ∧
        calculate_data_volume_impact rules (setTables r t2) = some v2 ∧ v1 ≤ v2 := by
    cases hDVr : r "data_volume" with
    | none =>
        exact ⟨0, 0, volume_none_setTables rules r t1 hDVr,
          volume_none_setTables rules r t2 hDVr, le_refl 0⟩
    | some dv =>
        exact ⟨_, _, volume_some_setTables rules r t1 hDVr,
          volume_some_setTables rules r t2 hDVr,
          mul_le_mul_of_nonneg_right hle (lookupVD_nonneg hDV le_rfl dv)⟩
  refine ⟨_, _, _, _,
    calculate_working_days_components rules (setTables r t1)
      (workflow_setTables rules r t1) (integration_setTables rules r t1)
      hrd1 hv1 (additional_setTables rules r t1),
    calculate_working_days_components rules (setTables r t2)
      (workflow_setTables rules r t2) (integration_setTables rules r t2)
      hrd2 hv2 (additional_setTables rules r t2), ?_⟩
  apply max_le_max _ (le_refl rules.minimum_project_days)
  apply ratTrunc_mono
  rw [sumVals_build_breakdown, sumVals_build_breakdown,
    tool_setTables rules r t1, tool_setTables rules r t2,
    cloud_setTables rules r t1, cloud_setTables rules r t2]
  have hMw : 0 ≤ workflowMult rules r := lookupVD_nonneg hWM (by norm_num) _
  have hMi : 0 ≤ integrationMult rules r := by
    unfold integrationMult
    split
    · exact lookupVD_nonneg hIC le_rfl _
    · split
      · exact lookupVD_nonneg hleg le_rfl _
      · exact le_refl 0
  have hper : 0 ≤ lookupD rules.additional_requirements
      "historical_analysis_per_workflow" 2 := lookupD_nonneg hAR (by norm_num) _
  have hadle : addTerms rules r t1 ≤ addTerms rules r t2 := by
    unfold addTerms
    have hh : (if truthy (getD r "historical_analysis" (.bool false)) then
        t1 * lookupD rules.additional_requirements "historical_analysis_per_workflow" 2
        else 0) ≤
        (if truthy (getD r "historical_analysis" (.bool false)) then
        t2 * lookupD rules.additional_requirements "historical_analysis_per_workflow" 2
        else 0) := by
      split
      · exact mul_le_mul_of_nonneg_right hle hper
      · exact le_refl 0
    linarith [hh]
  have h1 : clipPos (t1 * workflowMult rules r) ≤ clipPos (t2 * workflowMult rules r) :=
    clipPos_mono (mul_le_mul_of_nonneg_right hle hMw)
  have h2 : clipPos (t1 * integrationMult rules r) ≤ clipPos (t2 * integrationMult rules r) :=
    clipPos_mono (mul_le_mul_of_nonneg_right hle hMi)
  have h3 : clipPos rd1 ≤ clipPos rd2 := clipPos_mono hrdle
  have h4 : clipPos v1 ≤ clipPos v2 := clipPos_mono hvle
  have h5 : clipPos (addTerms rules r t1) ≤ clipPos (addTerms rules r t2) :=
    clipPos_mono hadle
  linarith [h1, h2, h3, h4, h5]

/-- Witness for the amended C4 at a concrete validated rule set,
`rules_count = 10`, table counts 1 ≤ 3. -/
theorem C4_witness :
    ∃ d1 b1 d2 b2,
      calculate_working_days c4wrules (setTables c4wresp 1) = some (d1, b1) ∧
      calculate_working_days c4wrules (setTables c4wresp 3) = some (d2, b2) ∧
      d1 ≤ d2 := by
  apply C4_amended_monotone_in_tables_count
  · simp [validate_calculation_rules, negativeErrors, c4wrules]
  · intro kv hkv
    simp [c4wrules] at hkv
  · have : lookupD c4wrules.rules_overhead "additional_rules_per_5" (1/2) = 1/2 := by
      simp [lookupD, c4wrules, List.lookup]
    rw [this]
    norm_num
  · intro v hv
    simp [c4wresp] at hv
    exact ⟨10, by rw [← hv]; rfl, by norm_num⟩
  · norm_num

/-- Claim C5: a response set carrying the legacy `num_workflows` key (and
no `tables_count`) produces exactly the same `(total_days, breakdown)` as
the response set with that binding renamed to `tables_count`. -/
theorem C5_legacy_num_workflows_equivalent (rules : CalculationRules)
    (r : Responses) (v : Value)
    (h1 : r "tables_count" = none) (h2 : r "num_workflows" = some v) :
    calculate_working_days rules r =
      calculate_working_days rules (swap_num_workflows r v) := by
  have hw : calculate_workflow_complexity rules (swap_num_workflows r v) =
      calculate_workflow_complexity rules r := by
    simp [calculate_workflow_complexity, tables_count?, tables_value, getD,
      swap_num_workflows, h1, h2]
  have hi : calculate_integration_complexity rules (swap_num_workflows r v) =
      calculate_integration_complexity rules r := by
    simp [calculate_integration_complexity, tables_count?, tables_value, getD,
      swap_num_workflows, h1, h2]
  have hrd : calculate_rules_development rules (swap_num_workflows r v) =
      calculate_rules_development rules r := by
    simp [calculate_rules_development, tables_count?, tables_value, getD,
      swap_num_workflows, h1, h2]
  have hv : calculate_data_volume_impact rules (swap_num_workflows r v) =
      calculate_data_volume_impact rules r := by
    simp [calculate_data_volume_impact, tables_count?, tables_value, getD,
      swap_num_workflows, h1, h2]
  have hts : calculate_tool_setup rules (swap_num_workflows r v) =
      calculate_tool_setup rules r := by
    simp [calculate_tool_setup, getD, swap_num_workflows]
  have hcl : calculate_cloud_integration rules (swap_num_workflows r v) =
      calculate_cloud_integration rules r := by
    simp [calculate_cloud_integration, getD, swap_num_workflows]
  have had : calculate_additional_requirements rules (swap_num_workflows r v) =
      calculate_additional_requirements rules r := by
    simp [calculate_additional_requirements, tables_count?, tables_value, getD,
      swap_num_workflows, h1, h2]
  simp only [calculate_working_days, hw, hi, hrd, hv, hts, hcl, had]

/-- Witness for C5 at a concrete response set with `num_workflows = 4`. -/
theorem C5_witness :
    calculate_working_days c5rules c5resp =
      calculate_working_days c5rules (swap_num_workflows c5resp (.num 4)) :=
  C5_legacy_num_workflows_equivalent c5rules c5resp (.num 4)
    (by simp [c5resp]) (by simp [c5resp])

/-- Counterexample to C6 as stated: for the label "No commercial tool"
(absent from an empty tool-setup table), the source contributes 0, while
the claim's formula (legacy text heuristic applied to any unmatched label)
would contribute the "need acquisition" default of 3. -/
theorem C6_counterexample :
    calculate_tool_setup c6rules c6resp = 0 ∧
    tool_setup_claimed c6rules c6resp = 3 := by
  have hx : hasSubstrExisting (Value.str "No commercial tool") = false := by decide
  constructor
  · simp [calculate_tool_setup, getD, lookupD, lookupVD, containsKeyV, c6rules,
      c6resp, List.lookup, hx]
  · simp [tool_setup_claimed, getD, lookupD, lookupVD, containsKeyV, c6rules,
      c6resp, List.lookup, hx]

/-- Claim C6 (amended): the Tool Setup component is the sum of (a) a
commercial-tool term — the table value on an exact label match, else, ONLY
when the label is exactly one of the two legacy labels "Have existing DQ
tool" / "Need other tool", the text heuristic (contains "existing" → the
"have existing tool" rate, else the "need acquisition" rate), else 0 — and
(b) the installation-service value for the installation label, default 0. -/
theorem C6_amended_tool_setup_formula (rules : CalculationRules) (r : Responses) :
    calculate_tool_setup rules r =
      (let ct := getD r "commercial_tool" (getD r "dq_tool_status" (.str "No commercial tool"))
       if containsKeyV rules.tool_setup ct then lookupVD rules.tool_setup ct 0
       else if ct = .str "Have existing DQ tool" then
         lookupD rules.tool_setup "Have existing DQ tool" 2
       else if ct = .str "Need other tool" then
         lookupD rules.tool_setup "Need tool acquisition" 3
       else 0) +
      lookupVD rules.datawash_installation
        (getD r "datawash_installation" (.str "No, not needed")) 0 := by
  unfold calculate_tool_setup
  have h1 : hasSubstrExisting (Value.str "Have existing DQ tool") = true := by decide
  have h2 : hasSubstrExisting (Value.str "Need other tool") = false := by decide
  set ct := getD r "commercial_tool" (getD r "dq_tool_status" (.str "No commercial tool")) with hct
  by_cases hA : containsKeyV rules.tool_setup ct
  · simp [hA]
  · by_cases hB : ct = Value.str "Have existing DQ tool"
    · simp [hA, hB, h1]
    · by_cases hC : ct = Value.str "Need other tool"
      · simp [hA, hB, hC, h2]
      · simp [hA, hB, hC]

/-- Counterexample to C7 as stated: a configuration whose legacy
integration-complexity table and installation-service table both hold a
negative coefficient loads without any `ConfigurationError`. -/
theorem C7_counterexample :
    load_config_error c7cfg = none ∧
    lookupD c7cfg.calculation_rules.integration_complexity_legacy
      "On-premise legacy systems" 0 < 0 ∧
    lookupD c7cfg.calculation_rules.datawash_installation
      "Yes, please provide installation" 0 < 0 := by
  refine ⟨?_, ?_, ?_⟩
  · simp [load_config_error, validate_config, validate_calculation_rules,
      negativeErrors, missingSectionErrors, complexityLevelErrors,
      dependencyErrors, dedupFirst, dedupFirstAux, c7cfg]
  · simp [lookupD, c7cfg, List.lookup]
  · simp [lookupD, c7cfg, List.lookup]

/-- Claim C7 (amended): `validate_calculation_rules` reports exactly one
message per violation it checks (the three scalar constraints plus each
negative coefficient of the seven iterated tables — the legacy integration
table, the rules-overhead table and the installation-service table are NOT
iterated), and it reports no violation exactly when all checked constraints
hold. -/
theorem C7_amended_checked_violations (rules : CalculationRules) :
    (validate_calculation_rules rules).length = countViolations rules ∧
    (validate_calculation_rules rules = [] ↔
      (0 < rules.base_service_days ∧ 0 < rules.minimum_project_days ∧
       rules.minimum_project_days ≤ rules.base_service_days ∧
       tableNonneg rules.workflow_multipliers ∧
       tableNonneg rules.integration_complexity ∧
       tableNonneg rules.data_volume_multipliers ∧
       tableNonneg rules.existing_rules_impact ∧
       tableNonneg rules.tool_setup ∧
       tableNonneg rules.cloud_integration ∧
       tableNonneg rules.additional_requirements)) := by
  constructor
  · unfold validate_calculation_rules countViolations
    simp only [List.length_append, negativeErrors_length]
    by_cases h1 : rules.base_service_days ≤ 0 <;>
      by_cases h2 : rules.minimum_project_days ≤ 0 <;>
        by_cases h3 : rules.base_service_days < rules.minimum_project_days <;>
          simp [h1, h2, h3]
  · constructor
    · intro h
      exact validate_ok_facts h
    · intro h
      unfold validate_calculation_rules
      simp only [List.append_eq_nil, if_singleton_eq_nil, negativeErrors_eq_nil,
        not_le, not_lt]
      tauto

/-- Claim C8 evaluated at the failing input: feeding a breakdown with one
positive component and `total_days = 0` to the tabular projection raises
ZeroDivisionError (modelled by `none`) — the percentage computation is NOT
guarded against division by zero. -/
theorem C8_zero_total_divides_by_zero :
    generate_breakdown_dataframe [("Base Service (Phases 0-3)", 9)] 0 = none := by
  norm_num [generate_breakdown_dataframe, rowOf, List.mapM, List.mapM.loop]

/-- Claim C9: for a tier of the configuration and a declared, non-optional
question Q of that tier that is absent from the responses, if every other
question shown for the tier validates cleanly then `validate_responses`
returns (does not raise) an error map with exactly the one entry for Q. -/
theorem C9_missing_required_single_error (config : DQCalculatorConfig)
    (r : Responses) (tier Q : String) (shown : List String) (qc : QuestionConfig)
    (hshown : get_questions_for_complexity config tier = some shown)
    (hQmem : Q ∈ shown)
    (hqc : config.questions.lookup Q = some qc)
    (hopt : qc.optional = false)
    (habs : r Q = none)
    (hothers : ∀ q ∈ shown, q ≠ Q → question_error config r q = none) :
    validate_responses config r tier = some [(Q, "This field is required")] := by
  unfold validate_responses
  rw [hshown]
  simp only [Option.some_bind, Option.some.injEq, bind, Option.bind_eq_bind]
  apply filterMap_single_error (question_error config r)
  · exact dedupFirst_nodup _
  · rw [dedupFirst_mem, List.mem_filter]
    exact ⟨hQmem, by simp [hqc]⟩
  · intro q hq hne
    rw [dedupFirst_mem, List.mem_filter] at hq
    exact hothers q hq.1 hne
  · rw [question_error, hqc]
    unfold validate_one
    rw [habs]
    simp [hopt]

/-- Witness for C9: a one-question tier with the question absent. -/
theorem C9_witness :
    validate_responses c9cfg (fun _ => none) "basic" =
      some [("tables_count", "This field is required")] := by
  apply C9_missing_required_single_error c9cfg (fun _ => none) "basic"
    "tables_count" ["tables_count"] c9qc
  · simp [get_questions_for_complexity, c9cfg, List.lookup]
  · simp
  · simp [c9cfg, List.lookup]
  · rfl
  · rfl
  · intro q hq hne
    simp at hq
    exact absurd hq hne

/-- Claim C10: `should_show_question` answers `false` for any question id
that is not among the declared questions, for every response set. -/
theorem C10_unknown_question_not_shown (config : DQCalculatorConfig)
    (question_id : String) (responses : Responses)
    (h : config.questions.lookup question_id = none) :
    should_show_question config question_id responses = false := by
  unfold should_show_question
  rw [h]

/-- Witness for C10 at a concrete configuration and an undeclared id. -/
theorem C10_witness :
    should_show_question c10cfg "undeclared_question" (fun _ => none) = false :=
  C10_unknown_question_not_shown c10cfg "undeclared_question" (fun _ => none)
    (by simp [c10cfg, List.lookup])
